import Mathlib

/-!
Shallow embedding of `src/src/views/HomeView.vue` of the
`three-dot-image` repository.

Numbers (screen pixels, world units, texture pixels) are modelled as
rationals.  The three.js raycaster (`setFromCamera` followed by
`intersectObject`) is external library code, so it is modelled as an
oracle of type `Raycast` passed to the handlers: it maps the NDC pointer,
the camera and the plane mesh to the optional first intersection.  DOM
refs (container, overlay canvas, coordinate label) are modelled as
present, which matches the mounted component in which the handlers run.
The JavaScript `TypeError` thrown when `raycaster.intersectObject` is
called with the still-undefined `planeMesh` surfaces as an `Option JsErr`
component of the handler results; the state component of a result then
reflects exactly the mutations performed before the throw (only the
`pointer` vector is written before that call).

`Vector2.distanceTo a b < c` with `0 ≤ c` is equivalent to
`distSq a b < c ^ 2`, which keeps every comparison inside `ℚ`; the lemma
`sqrt_lt_iff_sq` below records the equivalence over the reals.
-/

namespace HomeView

/-- A stored point (`type Pt`): display (overlay-canvas) coordinates and
world coordinates. -/
structure Pt where
  dx : ℚ
  dy : ℚ
  wx : ℚ
  wy : ℚ
  deriving DecidableEq

/-- `const SNAP_DIST = 20` — snap distance in world units. -/
def SNAP_DIST : ℚ := 20

/-- The container's `getBoundingClientRect()`. -/
structure Rect where
  left : ℚ
  top : ℚ
  width : ℚ
  height : ℚ
  deriving DecidableEq

/-- The orthographic camera: frustum planes, near/far, and position. -/
structure Camera where
  left : ℚ
  right : ℚ
  top : ℚ
  bottom : ℚ
  near : ℚ
  far : ℚ
  posX : ℚ
  posY : ℚ
  posZ : ℚ
  deriving DecidableEq

/-- The textured plane mesh (`planeMesh`): geometry size and position.
Three.js places a new mesh at the origin and this code never moves it. -/
structure PlaneData where
  width : ℚ
  height : ℚ
  posX : ℚ
  posY : ℚ
  posZ : ℚ
  deriving DecidableEq

/-- A raycast intersection: world-space point (`hit.point`) and texture
uv (`hit.uv`, always present for a `PlaneGeometry`). -/
structure Hit where
  px : ℚ
  py : ℚ
  pz : ℚ
  uvx : ℚ
  uvy : ℚ
  deriving DecidableEq

/-- The external three.js raycaster: from the NDC pointer, the camera and
the plane mesh to the first intersection (`intersectObject(...)[0]`). -/
abbrev Raycast := ℚ × ℚ → Camera → PlaneData → Option Hit

/-- CSS colors used on the overlay context. -/
inductive CssColor where
  | lime
  | cyan
  deriving DecidableEq

/-- One drawing command issued on the overlay 2D context.  `arc x y r`
stands for `ctx.arc(x, y, r, 0, Math.PI*2)`, a full circle. -/
inductive CanvasOp where
  | clearRect (x y w h : ℚ)
  | setStrokeStyle (c : CssColor)
  | setLineWidth (w : ℚ)
  | beginPath
  | moveTo (x y : ℚ)
  | lineTo (x y : ℚ)
  | stroke
  | setFillStyle (c : CssColor)
  | arc (x y r : ℚ)
  | fill
  deriving DecidableEq

/-- A polygon mesh added by `createShape`: the `THREE.Shape` vertices and
the `MeshBasicMaterial` parameters. -/
structure PolyMesh where
  verts : List (ℚ × ℚ)
  color : Nat
  opacity : ℚ
  transparent : Bool
  doubleSide : Bool
  deriving DecidableEq

/-- Text content of the coordinate label. -/
inductive LabelText where
  | empty
  | dash
  | coords (ix iy : ℚ)
  deriving DecidableEq

/-- The coordinate label: CSS position and text.  `coords ix iy` is
rendered as the rounded pair via `toFixed(0)`; the exact values are kept
here. -/
structure CoordLabel where
  left : ℚ
  top : ℚ
  text : LabelText
  deriving DecidableEq

/-- A thrown JavaScript error. -/
inductive JsErr where
  | typeError
  deriving DecidableEq

/-- The mutable module-level state of the component. -/
structure CompState where
  camera : Camera
  rendererW : ℚ
  rendererH : ℚ
  overlayW : ℚ
  overlayH : ℚ
  pointer : ℚ × ℚ
  planeMesh : Option PlaneData
  imgW : ℚ
  imgH : ℚ
  points : List Pt
  sceneMeshes : List PolyMesh
  coordLabel : CoordLabel
  deriving DecidableEq

/-- Squared Euclidean distance between two planar points. -/
def distSq (a b : ℚ × ℚ) : ℚ := (a.1 - b.1) ^ 2 + (a.2 - b.2) ^ 2

/-- `pointer.x = (px/w)*2 - 1; pointer.y = -(py/h)*2 + 1` — screen
position relative to the container converted to NDC. -/
def ndcOf (px py w h : ℚ) : ℚ × ℚ := ((px / w) * 2 - 1, -(py / h) * 2 + 1)

/-- `drawOverlay()`: clear the canvas, stroke the polyline when more than
one point is stored, then draw a radius-5 dot at every point.  The two
`for`-loops of the source become left folds accumulating commands. -/
def drawOverlay (pts : List Pt) (W H : ℚ) : List CanvasOp :=
  let ops : List CanvasOp := [.clearRect 0 0 W H]
  let ops := ops ++ [.setStrokeStyle .lime, .setLineWidth 2]
  let ops :=
    if 1 < pts.length then
      let p0 := pts.headD ⟨0, 0, 0, 0⟩
      let ops := ops ++ [.beginPath, .moveTo p0.dx p0.dy]
      let ops := (pts.drop 1).foldl (fun acc p => acc ++ [.lineTo p.dx p.dy]) ops
      ops ++ [.stroke]
    else ops
  let ops := ops ++ [.setFillStyle .cyan]
  pts.foldl (fun acc p => acc ++ [.beginPath, .arc p.dx p.dy 5, .fill]) ops

/-- `createShape()`: add a filled polygon mesh built from the stored
points' world coordinates to the scene, clear the overlay, reset the
points.  The returned list is the overlay commands issued. -/
def createShape (s : CompState) : CompState × List CanvasOp :=
  let mesh : PolyMesh :=
    { verts := s.points.map (fun p => (p.wx, p.wy))
      color := 0xff0000
      opacity := 1 / 2
      transparent := true
      doubleSide := true }
  ({ s with sceneMeshes := s.sceneMeshes ++ [mesh], points := [] },
    [.clearRect 0 0 s.overlayW s.overlayH])

/-- `onPointerMove`: update the NDC pointer, raycast, and either show a
dash (no hit) or move the label and show the image-pixel coordinates
`(uv.x * imgW, (1 - uv.y) * imgH)`. -/
def onPointerMove (clientX clientY : ℚ) (r : Rect) (rc : Raycast) (s : CompState) :
    CompState × Option JsErr :=
  let px := clientX - r.left
  let py := clientY - r.top
  let s1 := { s with pointer := ndcOf px py r.width r.height }
  match s1.planeMesh with
  | none => (s1, some .typeError)
  | some pm =>
    match rc s1.pointer s1.camera pm with
    | none => ({ s1 with coordLabel := { s1.coordLabel with text := .dash } }, none)
    | some h =>
      let ix := h.uvx * s1.imgW
      let iy := (1 - h.uvy) * s1.imgH
      ({ s1 with coordLabel := { left := px, top := py - 20, text := .coords ix iy } }, none)

/-- `onPointerDown`: update the NDC pointer, raycast; on a hit either
close the shape (at least 3 stored points and the hit is within
`SNAP_DIST` of the first point's world position) or append the point and
redraw the overlay.  The middle component is the overlay commands
issued. -/
def onPointerDown (clientX clientY : ℚ) (r : Rect) (rc : Raycast) (s : CompState) :
    CompState × List CanvasOp × Option JsErr :=
  let dx := clientX - r.left
  let dy := clientY - r.top
  let s1 := { s with pointer := ndcOf dx dy r.width r.height }
  match s1.planeMesh with
  | none => (s1, [], some .typeError)
  | some pm =>
    match rc s1.pointer s1.camera pm with
    | none => (s1, [], none)
    | some h =>
      let first := s1.points.headD ⟨0, 0, 0, 0⟩
      if 3 ≤ s1.points.length ∧ distSq (first.wx, first.wy) (h.px, h.py) < SNAP_DIST ^ 2 then
        let res := createShape s1
        (res.1, res.2, none)
      else
        let s2 := { s1 with points := s1.points ++ [⟨dx, dy, h.px, h.py⟩] }
        (s2, drawOverlay s2.points s2.overlayW s2.overlayH, none)

/-- `resizeAll()`: set the renderer size, the camera frustum and the
overlay canvas size from the container client size. -/
def resizeAll (w h : ℚ) (s : CompState) : CompState :=
  { s with
    rendererW := w
    rendererH := h
    camera := { s.camera with left := -w / 2, right := w / 2, top := h / 2, bottom := -h / 2 }
    overlayW := w
    overlayH := h }

/-- The state after `onMounted` with container client size `(w, h)`:
camera built with the initial frustum and placed at `(0, 0, 10)`, then
`resizeAll()` is run.  300 × 150 is the default canvas size before any
explicit sizing. -/
def initialState (w h : ℚ) : CompState :=
  resizeAll w h
    { camera :=
        { left := -w / 2, right := w / 2, top := h / 2, bottom := -h / 2
          near := 1 / 10, far := 1000, posX := 0, posY := 0, posZ := 10 }
      rendererW := 300
      rendererH := 150
      overlayW := 300
      overlayH := 150
      pointer := (0, 0)
      planeMesh := none
      imgW := 0
      imgH := 0
      points := []
      sceneMeshes := []
      coordLabel := { left := 0, top := 0, text := .empty } }

/-- External side effects of the file-loading path and of unmounting.
Blob URLs are identified by an opaque numeric token. -/
inductive Effect where
  | createURL (url : Nat)
  | loadTextureReq (url : Nat)
  | sceneAddPlane
  | revokeURL (url : Nat)
  | removeResizeListener
  | cancelAnimFrame
  deriving DecidableEq

/-- `onFileChange`: nothing when no file is selected; otherwise a blob
URL is minted and the texture load is started with it. -/
def onFileChange (file : Option Nat) : List Effect :=
  match file with
  | none => []
  | some url => [.createURL url, .loadTextureReq url]

/-- The `TextureLoader().load` success callback for blob URL `url` and a
texture of pixel size `texW × texH`: record the image size, build the
plane mesh, add it to the scene, then revoke the URL. -/
def textureLoadCallback (url : Nat) (texW texH : ℚ) (s : CompState) :
    CompState × List Effect :=
  let s1 := { s with imgW := texW, imgH := texH }
  let pm : PlaneData :=
    { width := s1.imgW, height := s1.imgH, posX := 0, posY := 0, posZ := 0 }
  ({ s1 with planeMesh := some pm }, [.sceneAddPlane, .revokeURL url])

/-- `onUnmounted`: remove the resize listener and cancel the render
loop, in source order. -/
def unmountEffects : List Effect := [.removeResizeListener, .cancelAnimFrame]

/-- A user pointer input over the container: a move or a down, with the
client coordinates, the container rect and the raycaster behaviour. -/
inductive PointerInput where
  | move (clientX clientY : ℚ) (r : Rect) (rc : Raycast)
  | down (clientX clientY : ℚ) (r : Rect) (rc : Raycast)

/-- Dispatch a pointer input to its handler and keep the state. -/
def handlePointer : PointerInput → CompState → CompState
  | .move cx cy r rc, s => (onPointerMove cx cy r rc s).1
  | .down cx cy r rc, s => (onPointerDown cx cy r rc s).1

/-- The camera's position. -/
def camPosition (s : CompState) : ℚ × ℚ × ℚ :=
  (s.camera.posX, s.camera.posY, s.camera.posZ)

/-- The plane mesh's position, when the plane exists. -/
def planePosition (s : CompState) : Option (ℚ × ℚ × ℚ) :=
  s.planeMesh.map (fun pm => (pm.posX, pm.posY, pm.posZ))

/-- A loaded plane used by concrete test states: the one the load
callback builds for a 400 × 300 texture. -/
def testPlane : PlaneData :=
  { width := 400, height := 300, posX := 0, posY := 0, posZ := 0 }

/-- A mounted state (800 × 600 container) after a 400 × 300 texture has
loaded under blob URL token 7. -/
def testStateLoaded : CompState :=
  (textureLoadCallback 7 400 300 (initialState 800 600)).1

/-- `testStateLoaded` with three stored points, the first at world
position `(0, 0)`. -/
def testState3 : CompState :=
  { testStateLoaded with
    points := [⟨100, 100, 0, 0⟩, ⟨200, 100, 100, 0⟩, ⟨200, 200, 100, 100⟩] }

/-- Accumulating a block of commands per element with a left fold is the
same as appending the flattened map of blocks. -/
theorem foldl_append_blocks {α β : Type} (f : α → List β) (l : List α) (init : List β) :
    l.foldl (fun acc p => acc ++ f p) init = init ++ (l.map f).flatten := by
  induction l generalizing init with
  | nil => simp
  | cons a t ih => simp [List.foldl_cons, ih, List.append_assoc]

/-- Flattening a map of singleton blocks is the plain map. -/
theorem flatten_map_singleton {α β : Type} (g : α → β) (l : List α) :
    (l.map (fun p => [g p])).flatten = l.map g := by
  induction l with
  | nil => rfl
  | cons a t ih => simp [ih]

/-- C4: after `resizeAll` with container client size `(w, h)`, the
renderer size is `(w, h)`, the camera frustum is `left = -w/2`,
`right = w/2`, `top = h/2`, `bottom = -h/2`, and the overlay canvas is
`w × h`. -/
theorem resizeAll_synchronizes (w h : ℚ) (s : CompState) :
    (resizeAll w h s).rendererW = w ∧ (resizeAll w h s).rendererH = h ∧
    (resizeAll w h s).camera.left = -w / 2 ∧ (resizeAll w h s).camera.right = w / 2 ∧
    (resizeAll w h s).camera.top = h / 2 ∧ (resizeAll w h s).camera.bottom = -h / 2 ∧
    (resizeAll w h s).overlayW = w ∧ (resizeAll w h s).overlayH = h :=
  ⟨rfl, rfl, rfl, rfl, rfl, rfl, rfl, rfl⟩

/-- C10: after `createShape` returns, the stored point sequence is empty
and the overlay canvas is cleared, while the image size, the plane mesh
and all previously added polygon meshes are unchanged. -/
theorem createShape_resets_and_preserves (s : CompState) :
    (createShape s).1.points = [] ∧
    (createShape s).2 = [CanvasOp.clearRect 0 0 s.overlayW s.overlayH] ∧
    (createShape s).1.imgW = s.imgW ∧
    (createShape s).1.imgH = s.imgH ∧
    (createShape s).1.planeMesh = s.planeMesh ∧
    (createShape s).1.sceneMeshes.take s.sceneMeshes.length = s.sceneMeshes := by
  refine ⟨rfl, rfl, rfl, rfl, rfl, ?_⟩
  simp [createShape]

/-- C6: the texture-load callback revokes the blob URL, and does so after
the textured plane is added to the scene; unmounting removes the resize
listener and cancels the render loop. -/
theorem loadCallback_revokes_and_unmount_cleans (url : Nat) (texW texH : ℚ) (s : CompState) :
    (∃ i j : Nat, i < j ∧
        ((textureLoadCallback url texW texH s).2)[i]? = some Effect.sceneAddPlane ∧
        ((textureLoadCallback url texW texH s).2)[j]? = some (Effect.revokeURL url)) ∧
    Effect.removeResizeListener ∈ unmountEffects ∧
    Effect.cancelAnimFrame ∈ unmountEffects :=
  ⟨⟨0, 1, by decide, rfl, rfl⟩, by simp [unmountEffects], by simp [unmountEffects]⟩

/-- C7: every overlay redraw first clears the whole canvas, then, when
more than one point is stored, strokes a single polyline through all
stored points in order at their display coordinates, and then draws a
filled circle of radius 5 at every stored point's display coordinates. -/
theorem drawOverlay_clear_polyline_dots (pts : List Pt) (W H : ℚ) :
    drawOverlay pts W H =
      [CanvasOp.clearRect 0 0 W H, CanvasOp.setStrokeStyle CssColor.lime,
        CanvasOp.setLineWidth 2] ++
      (if 1 < pts.length then
        CanvasOp.beginPath ::
          CanvasOp.moveTo (pts.headD ⟨0, 0, 0, 0⟩).dx (pts.headD ⟨0, 0, 0, 0⟩).dy ::
          ((pts.drop 1).map (fun p => CanvasOp.lineTo p.dx p.dy) ++ [CanvasOp.stroke])
      else []) ++
      [CanvasOp.setFillStyle CssColor.cyan] ++
      (pts.map (fun p => [CanvasOp.beginPath, CanvasOp.arc p.dx p.dy 5,
        CanvasOp.fill])).flatten := by
  unfold drawOverlay
  rw [foldl_append_blocks]
  split
  · dsimp only
    rw [foldl_append_blocks, flatten_map_singleton]
    simp [List.append_assoc]
  · simp [List.append_assoc]

/-- Justification for embedding `Vector2.distanceTo a b < c` as
`distSq a b < c ^ 2`: for a positive bound the square-root comparison and
the squared comparison agree. -/
theorem dist_lt_iff_distSq_lt (a b : ℚ × ℚ) (c : ℚ) (hc : 0 < c) :
    Real.sqrt (distSq a b) < c ↔ (distSq a b : ℝ) < (c : ℝ) ^ 2 :=
  Real.sqrt_lt' (by exact_mod_cast hc)

/-- C9: before any texture load has completed, `planeMesh` is still
undefined, and both pointer handlers reach
`raycaster.intersectObject(planeMesh)` and throw a `TypeError`. -/
theorem handlers_throw_before_load (clientX clientY : ℚ) (r : Rect) (rc : Raycast)
    (s : CompState) (hpm : s.planeMesh = none) :
    (onPointerMove clientX clientY r rc s).2 = some JsErr.typeError ∧
    (onPointerDown clientX clientY r rc s).2.2 = some JsErr.typeError := by
  unfold onPointerMove onPointerDown
  simp only [hpm]
  refine ⟨?_, ?_⟩ <;> trivial

/-- Witness for C9 at a concrete input: the freshly mounted state. -/
theorem handlers_throw_before_load_witness :
    (onPointerMove 100 100 ⟨0, 0, 800, 600⟩ (fun _ _ _ => none) (initialState 800 600)).2 =
        some JsErr.typeError ∧
    (onPointerDown 100 100 ⟨0, 0, 800, 600⟩ (fun _ _ _ => none) (initialState 800 600)).2.2 =
        some JsErr.typeError :=
  handlers_throw_before_load 100 100 ⟨0, 0, 800, 600⟩ (fun _ _ _ => none)
    (initialState 800 600) rfl

/-- C8: a pointerdown whose ray misses the plane returns early: apart
from the NDC pointer written before the raycast, the state is unchanged
and no overlay command is issued. -/
theorem onPointerDown_miss_noop (clientX clientY : ℚ) (r : Rect) (rc : Raycast)
    (s : CompState) (pm : PlaneData)
    (hpm : s.planeMesh = some pm)
    (hmiss : rc (ndcOf (clientX - r.left) (clientY - r.top) r.width r.height) s.camera pm =
      none) :
    (onPointerDown clientX clientY r rc s).1 =
      { s with pointer := ndcOf (clientX - r.left) (clientY - r.top) r.width r.height } ∧
    (onPointerDown clientX clientY r rc s).2.1 = [] ∧
    (onPointerDown clientX clientY r rc s).2.2 = none := by
  unfold onPointerDown
  simp only [hpm, hmiss]
  refine ⟨?_, ?_, ?_⟩ <;> trivial

/-- Witness for C8 at a concrete input: a loaded state and a raycaster
that never hits. -/
theorem onPointerDown_miss_noop_witness :
    (onPointerDown 100 100 ⟨0, 0, 800, 600⟩ (fun _ _ _ => none) testStateLoaded).1 =
      { testStateLoaded with pointer := ndcOf (100 - 0) (100 - 0) 800 600 } ∧
    (onPointerDown 100 100 ⟨0, 0, 800, 600⟩ (fun _ _ _ => none) testStateLoaded).2.1 = [] ∧
    (onPointerDown 100 100 ⟨0, 0, 800, 600⟩ (fun _ _ _ => none) testStateLoaded).2.2 = none :=
  onPointerDown_miss_noop 100 100 ⟨0, 0, 800, 600⟩ (fun _ _ _ => none)
    testStateLoaded testPlane rfl rfl

/-- C2: a pointer move converts the container-relative position to NDC
as `((px/w)*2 - 1, -(py/h)*2 + 1)`, and on a hit displays the image-pixel
coordinates `(uv.x * imgW, (1 - uv.y) * imgH)` at the pointer. -/
theorem onPointerMove_ndc_uv (clientX clientY : ℚ) (r : Rect) (rc : Raycast)
    (s : CompState) (pm : PlaneData) (h : Hit)
    (hpm : s.planeMesh = some pm)
    (hhit : rc (ndcOf (clientX - r.left) (clientY - r.top) r.width r.height) s.camera pm =
      some h) :
    (onPointerMove clientX clientY r rc s).1.pointer =
      (((clientX - r.left) / r.width) * 2 - 1, -((clientY - r.top) / r.height) * 2 + 1) ∧
    (onPointerMove clientX clientY r rc s).1.coordLabel =
      { left := clientX - r.left, top := clientY - r.top - 20,
        text := .coords (h.uvx * s.imgW) ((1 - h.uvy) * s.imgH) } := by
  unfold onPointerMove
  simp only [hpm, hhit]
  refine ⟨?_, ?_⟩ <;> trivial

/-- Witness for C2 at a concrete input: a loaded state and a raycaster
hitting at uv `(1/4, 1/4)`. -/
theorem onPointerMove_ndc_uv_witness :
    (onPointerMove 100 100 ⟨0, 0, 800, 600⟩ (fun _ _ _ => some ⟨5, 5, 0, 1/4, 1/4⟩)
        testStateLoaded).1.pointer =
      (((100 - 0) / 800) * 2 - 1, -((100 - 0) / 600) * 2 + 1) ∧
    (onPointerMove 100 100 ⟨0, 0, 800, 600⟩ (fun _ _ _ => some ⟨5, 5, 0, 1/4, 1/4⟩)
        testStateLoaded).1.coordLabel =
      { left := 100 - 0, top := 100 - 0 - 20,
        text := .coords ((1/4) * testStateLoaded.imgW) ((1 - 1/4) * testStateLoaded.imgH) } :=
  onPointerMove_ndc_uv 100 100 ⟨0, 0, 800, 600⟩ (fun _ _ _ => some ⟨5, 5, 0, 1/4, 1/4⟩)
    testStateLoaded testPlane ⟨5, 5, 0, 1/4, 1/4⟩ rfl rfl

/-- C1: a pointerdown whose ray hits the plane closes the sequence into
a filled polygon exactly when at least 3 points are stored and the hit's
world distance to the first stored point is below `SNAP_DIST`; then no
point is appended; otherwise the point is appended with its display and
world coordinates. -/
theorem onPointerDown_snap_closure (clientX clientY : ℚ) (r : Rect) (rc : Raycast)
    (s : CompState) (pm : PlaneData) (h : Hit)
    (hpm : s.planeMesh = some pm)
    (hhit : rc (ndcOf (clientX - r.left) (clientY - r.top) r.width r.height) s.camera pm =
      some h) :
    (3 ≤ s.points.length ∧
        distSq ((s.points.headD ⟨0, 0, 0, 0⟩).wx, (s.points.headD ⟨0, 0, 0, 0⟩).wy)
          (h.px, h.py) < SNAP_DIST ^ 2 →
      (onPointerDown clientX clientY r rc s).1.points = [] ∧
      (onPointerDown clientX clientY r rc s).1.sceneMeshes =
        s.sceneMeshes ++
          [{ verts := s.points.map (fun p => (p.wx, p.wy)), color := 0xff0000,
             opacity := 1 / 2, transparent := true, doubleSide := true }]) ∧
    (¬ (3 ≤ s.points.length ∧
        distSq ((s.points.headD ⟨0, 0, 0, 0⟩).wx, (s.points.headD ⟨0, 0, 0, 0⟩).wy)
          (h.px, h.py) < SNAP_DIST ^ 2) →
      (onPointerDown clientX clientY r rc s).1.points =
        s.points ++ [⟨clientX - r.left, clientY - r.top, h.px, h.py⟩] ∧
      (onPointerDown clientX clientY r rc s).1.sceneMeshes = s.sceneMeshes) := by
  unfold onPointerDown
  simp only [hpm, hhit]
  constructor
  · intro hclose
    rw [if_pos hclose]
    exact ⟨rfl, rfl⟩
  · intro hopen
    rw [if_neg hopen]
    exact ⟨rfl, rfl⟩

/-- Witness for C1 at a concrete input: three stored points, first at
world `(0, 0)`, hit at world `(5, 5)` — distance `√50 < 20`. -/
theorem onPointerDown_snap_closure_witness :
    (onPointerDown 105 105 ⟨0, 0, 800, 600⟩ (fun _ _ _ => some ⟨5, 5, 0, 1/2, 1/2⟩)
        testState3).1.points = [] ∧
    (onPointerDown 105 105 ⟨0, 0, 800, 600⟩ (fun _ _ _ => some ⟨5, 5, 0, 1/2, 1/2⟩)
        testState3).1.sceneMeshes =
      testState3.sceneMeshes ++
        [{ verts := testState3.points.map (fun p => (p.wx, p.wy)), color := 0xff0000,
           opacity := 1 / 2, transparent := true, doubleSide := true }] :=
  (onPointerDown_snap_closure 105 105 ⟨0, 0, 800, 600⟩
      (fun _ _ _ => some ⟨5, 5, 0, 1/2, 1/2⟩) testState3 testPlane
      ⟨5, 5, 0, 1/2, 1/2⟩ rfl rfl).1
    (by refine ⟨by norm_num [testState3], ?_⟩
        norm_num [testState3, testStateLoaded, distSq, SNAP_DIST])

/-- C5: when the pointerdown closes the sequence, the polygon mesh added
to the scene has exactly the accumulated points' world coordinates, in
storage order, as its shape vertices. -/
theorem closure_mesh_vertices (clientX clientY : ℚ) (r : Rect) (rc : Raycast)
    (s : CompState) (pm : PlaneData) (h : Hit)
    (hpm : s.planeMesh = some pm)
    (hhit : rc (ndcOf (clientX - r.left) (clientY - r.top) r.width r.height) s.camera pm =
      some h)
    (hclose : 3 ≤ s.points.length ∧
      distSq ((s.points.headD ⟨0, 0, 0, 0⟩).wx, (s.points.headD ⟨0, 0, 0, 0⟩).wy)
        (h.px, h.py) < SNAP_DIST ^ 2) :
    (onPointerDown clientX clientY r rc s).1.sceneMeshes.map PolyMesh.verts =
      s.sceneMeshes.map PolyMesh.verts ++ [s.points.map (fun p => (p.wx, p.wy))] := by
  unfold onPointerDown
  simp only [hpm, hhit]
  rw [if_pos hclose]
  simp [createShape]

/-- Witness for C5 at the same concrete closing input as C1's witness. -/
theorem closure_mesh_vertices_witness :
    (onPointerDown 105 105 ⟨0, 0, 800, 600⟩ (fun _ _ _ => some ⟨5, 5, 0, 1/2, 1/2⟩)
        testState3).1.sceneMeshes.map PolyMesh.verts =
      testState3.sceneMeshes.map PolyMesh.verts ++
        [testState3.points.map (fun p => (p.wx, p.wy))] :=
  closure_mesh_vertices 105 105 ⟨0, 0, 800, 600⟩ (fun _ _ _ => some ⟨5, 5, 0, 1/2, 1/2⟩)
    testState3 testPlane ⟨5, 5, 0, 1/2, 1/2⟩ rfl rfl
    (by refine ⟨by norm_num [testState3], ?_⟩
        norm_num [testState3, testStateLoaded, distSq, SNAP_DIST])

/-- `onPointerMove` never changes the camera or the plane mesh. -/
theorem onPointerMove_preserves_cam_plane (clientX clientY : ℚ) (r : Rect) (rc : Raycast)
    (s : CompState) :
    (onPointerMove clientX clientY r rc s).1.camera = s.camera ∧
    (onPointerMove clientX clientY r rc s).1.planeMesh = s.planeMesh := by
  unfold onPointerMove
  dsimp only
  split
  · simp
  · split <;> simp

/-- `onPointerDown` never changes the camera or the plane mesh. -/
theorem onPointerDown_preserves_cam_plane (clientX clientY : ℚ) (r : Rect) (rc : Raycast)
    (s : CompState) :
    (onPointerDown clientX clientY r rc s).1.camera = s.camera ∧
    (onPointerDown clientX clientY r rc s).1.planeMesh = s.planeMesh := by
  unfold onPointerDown
  dsimp only
  split
  · simp
  · split
    · simp
    · split <;> simp [createShape]

/-- C3 counterexample: no pointer input — move or down, at any position,
with any container rect, raycaster behaviour and state — ever changes
the camera's position or the plane's position: the view cannot be
panned. -/
theorem no_pointer_input_pans :
    ¬ ∃ (i : PointerInput) (s : CompState),
        camPosition (handlePointer i s) ≠ camPosition s ∨
        planePosition (handlePointer i s) ≠ planePosition s := by
  rintro ⟨i, s, hbad⟩
  cases i with
  | move cx cy r rc =>
    have hp := onPointerMove_preserves_cam_plane cx cy r rc s
    rcases hbad with hb | hb
    · exact hb (by simp [handlePointer, camPosition, hp.1])
    · exact hb (by simp [handlePointer, planePosition, hp.2])
  | down cx cy r rc =>
    have hp := onPointerDown_preserves_cam_plane cx cy r rc s
    rcases hbad with hb | hb
    · exact hb (by simp [handlePointer, camPosition, hp.1])
    · exact hb (by simp [handlePointer, planePosition, hp.2])

/-- C3 (amended): the rendered plane is not pannable — every pointer
input leaves both the camera's position and the plane's position exactly
as they were. -/
theorem pointer_input_preserves_positions (i : PointerInput) (s : CompState) :
    camPosition (handlePointer i s) = camPosition s ∧
    planePosition (handlePointer i s) = planePosition s := by
  cases i with
  | move cx cy r rc =>
    have hp := onPointerMove_preserves_cam_plane cx cy r rc s
    exact ⟨by simp [handlePointer, camPosition, hp.1],
      by simp [handlePointer, planePosition, hp.2]⟩
  | down cx cy r rc =>
    have hp := onPointerDown_preserves_cam_plane cx cy r rc s
    exact ⟨by simp [handlePointer, camPosition, hp.1],
      by simp [handlePointer, planePosition, hp.2]⟩

end HomeView
